import Mathlib

/-!
Verification of the credential / account-security subsystem of the Flokie
repository (Flask API template): a shallow embedding of
`app/models/user.py`, `app/services/auth_service.py`,
`app/utils/exceptions.py` and `app/utils/error_helpers.py`.

Modelling conventions:
* Wall-clock instants (`datetime.utcnow()`) are natural numbers counting
  seconds; `timedelta(minutes=30)` is `1800`, `timedelta(hours=24)` is `86400`.
* Python `None`-able strings / datetimes become `Option String` / `Option Nat`.
* `failed_login_attempts` is stored in the source as a decimal string
  (written only as `"0"` or `str(n + 1)`, read back with `int(s or "0")`),
  so every reachable value is the decimal numeral of a natural number; the
  field is embedded directly as `Nat`.
* The password hasher (werkzeug's `generate_password_hash` /
  `check_password_hash`) is an external component (spec §4.1); it is passed
  in as explicit function parameters `hash : String → String` and
  `hashOk : String → String → Bool` (hash first, plaintext second, matching
  `check_password_hash(self.password_hash, password)`).
* The persistent store (`User.query` / `db.session`) is a list of users;
  `db.session.commit()` on a mutated user becomes an explicit store update.
  Service functions return the committed store next to their result, so an
  error raised before any commit leaves the store component unchanged.
* JWT access/refresh token generation (`flask_jwt_extended`) is an external
  signing component; its success path is abstracted to the account payload.
-/

namespace Flokie

/-- Python truthiness of an optional string: `None` and `""` are falsy. -/
def pyTruthy : Option String → Bool
  | none => false
  | some s => !(s == "")

/-- Python `s.lower()` on the character list (kernel-reducible form of
`String.toLower`). -/
def pyLower (s : String) : String :=
  (s.data.map Char.toLower).asString

/-- Python `s.strip()` on the character list (kernel-reducible form of
`String.trim`): whitespace dropped from both ends. -/
def pyStrip (s : String) : String :=
  (((s.data.dropWhile Char.isWhitespace).reverse.dropWhile
      Char.isWhitespace).reverse).asString

/-- Python `c in s` on the character list (kernel-reducible form of
`String.contains`). -/
def pyContains (s : String) (c : Char) : Bool :=
  s.data.contains c

/-- Python `s.lower().strip()` as used by the `username`/`email`
SQLAlchemy validators and the `get_by_username`/`get_by_email` lookups. -/
def pyNormalize (s : String) : String :=
  pyStrip (pyLower s)

/-- The persisted `users` record, restricted to the fields the
credential subsystem reads or writes (`app/models/user.py`). -/
structure User where
  id : Nat
  username : String
  email : String
  password_hash : Option String
  is_active : Bool
  is_verified : Bool
  failed_login_attempts : Nat
  locked_until : Option Nat
  last_login_at : Option Nat
  password_changed_at : Option Nat
  email_verified_at : Option Nat
  email_verification_token : Option String
  password_reset_token : Option String
  password_reset_expires_at : Option Nat
deriving Repr, DecidableEq

namespace User

/-- `User.set_password` (user.py lines 95-110):
rejects a password whose stripped form is shorter than 8 characters,
otherwise stores the hash and stamps `password_changed_at`.
`Except.error` models the raised `ValueError`. -/
def set_password (hash : String → String) (now : Nat) (u : User)
    (password : String) : Except String User :=
  if password = "" ∨ (pyStrip password).length < 8 then
    Except.error "Password must be at least 8 characters long"
  else
    Except.ok { u with
      password_hash := some (hash password)
      password_changed_at := some now }

/-- `User.check_password` (user.py lines 112-151): empty/missing plaintext or
missing hash short-circuits to `false` with no state change; a successful
verification resets the failed counter, stamps `last_login_at` and clears the
lock; a failed one increments the counter and, when the new count reaches 5,
locks the account for 30 minutes (1800 seconds) from `now`. -/
def check_password (hashOk : String → String → Bool) (now : Nat) (u : User)
    (password : Option String) : Bool × User :=
  if pyTruthy password = false ∨ pyTruthy u.password_hash = false then
    (false, u)
  else
    let is_valid := hashOk (u.password_hash.getD "") (password.getD "")
    if is_valid then
      (true, { u with
        failed_login_attempts := 0
        last_login_at := some now
        locked_until := none })
    else
      let current_attempts := u.failed_login_attempts
      if current_attempts + 1 ≥ 5 then
        (false, { u with
          failed_login_attempts := current_attempts + 1
          locked_until := some (now + 1800) })
      else
        (false, { u with failed_login_attempts := current_attempts + 1 })

/-- `User.is_account_locked` (user.py lines 153-169): no lock timestamp means
unlocked; an expired lock (`now > locked_until`, strictly) is lazily cleared
together with the failed counter; otherwise the account reports locked. -/
def is_account_locked (now : Nat) (u : User) : Bool × User :=
  match u.locked_until with
  | none => (false, u)
  | some t =>
    if now > t then
      (false, { u with locked_until := none, failed_login_attempts := 0 })
    else
      (true, u)

/-- `User.unlock_account` (user.py lines 171-177). -/
def unlock_account (u : User) : User :=
  { u with locked_until := none, failed_login_attempts := 0 }

/-- `User.verify_email` (user.py lines 193-200): marks the email verified,
stamps `email_verified_at` and clears the stored verification token. -/
def verify_email (now : Nat) (u : User) : User :=
  { u with
    is_verified := true
    email_verified_at := some now
    email_verification_token := none }

/-- `User.set_email_verification_token` (user.py lines 202-210). -/
def set_email_verification_token (u : User) (token : String) : User :=
  { u with email_verification_token := some token }

/-- `User.set_password_reset_token` (user.py lines 212-226): stores the token
together with an expiry `expires_in_hours` hours from `now`. -/
def set_password_reset_token (now expires_in_hours : Nat) (u : User)
    (token : String) : User :=
  { u with
    password_reset_token := some token
    password_reset_expires_at := some (now + expires_in_hours * 3600) }

/-- `User.clear_password_reset_token` (user.py lines 228-234). -/
def clear_password_reset_token (u : User) : User :=
  { u with password_reset_token := none, password_reset_expires_at := none }

/-- `User.is_password_reset_token_valid` (user.py lines 236-257): requires a
stored token and expiry, an exact token match, and `now ≤ expiry`
(the source tests `utcnow() > expires_at`, strictly); an expired token is
cleared as a side effect. -/
def is_password_reset_token_valid (now : Nat) (u : User) (token : String) :
    Bool × User :=
  if pyTruthy u.password_reset_token = false ∨
      u.password_reset_expires_at = none then
    (false, u)
  else if u.password_reset_token ≠ some token then
    (false, u)
  else if now > u.password_reset_expires_at.getD 0 then
    (false, clear_password_reset_token u)
  else
    (true, u)

end User

/-- A typed failure of the error taxonomy (`app/utils/exceptions.py`):
the machine-readable `error_code`, the HTTP `status_code` the boundary
handler returns (`create_error_response` uses `error.status_code`), and the
human-readable message. -/
structure APIError where
  error_code : String
  status_code : Nat
  message : String
deriving Repr, DecidableEq

/-- `ValidationError` (exceptions.py lines 85-109): code
`VALIDATION_ERROR`, status 400. -/
def validationError (msg : String) : APIError :=
  ⟨"VALIDATION_ERROR", 400, msg⟩

/-- `InvalidCredentialsError` (exceptions.py lines 313-317): raised with no
arguments, so code, status and message are the class constants:
`INVALID_CREDENTIALS`, 401 (inherited from `AuthenticationError`),
"Invalid username or password". -/
def invalidCredentialsError : APIError :=
  ⟨"INVALID_CREDENTIALS", 401, "Invalid username or password"⟩

/-- `BusinessLogicError` (exceptions.py lines 181-190): code
`BUSINESS_LOGIC_ERROR`, status 400. -/
def businessLogicError (msg : String) : APIError :=
  ⟨"BUSINESS_LOGIC_ERROR", 400, msg⟩

/-- `AuthenticationError(message, code=..., status_code=...)`
(exceptions.py lines 112-121) as raised with explicit code/status overrides
throughout `auth_service.py`. -/
def authenticationError (code : String) (status : Nat) (msg : String) :
    APIError :=
  ⟨code, status, msg⟩

/-- The credential store: the `users` table. -/
abbrev Store := List User

/-- `User.get_by_username` (user.py lines 423-438):
`filter_by(username=username.lower().strip()).first()`. -/
def get_by_username (store : Store) (username : String) : Option User :=
  store.find? (fun u => u.username == pyNormalize username)

/-- `User.get_by_email` (user.py lines 440-455):
`filter_by(email=email.lower().strip()).first()`. -/
def get_by_email (store : Store) (email : String) : Option User :=
  store.find? (fun u => u.email == pyNormalize email)

/-- `db.session.commit()` after mutating one fetched user: the row with the
user's primary key is replaced by the mutated record. -/
def updateUser (store : Store) (u : User) : Store :=
  store.map (fun v => if v.id = u.id then u else v)

namespace AuthService

/-- `AuthService._find_user_by_login` (auth_service.py lines 548-567):
an identifier containing `@` is looked up by email only; otherwise the
username lookup is tried first with an email lookup as fallback. -/
def find_user_by_login (store : Store) (username_or_email : String) :
    Option User :=
  if pyContains username_or_email '@' then
    get_by_email store username_or_email
  else
    match get_by_username store username_or_email with
    | some u => some u
    | none => get_by_email store username_or_email

/-- Modelled from the spec (§4.4 login): the spec's account-lookup algorithm,
in which the fallback applies in both directions — "try username first if no
'@', else email; fall back to the other if missed". Stated only to be
compared with `find_user_by_login`, which is translated from the source. -/
def find_user_by_login_spec (store : Store) (username_or_email : String) :
    Option User :=
  if pyContains username_or_email '@' then
    match get_by_email store username_or_email with
    | some u => some u
    | none => get_by_username store username_or_email
  else
    match get_by_username store username_or_email with
    | some u => some u
    | none => get_by_email store username_or_email

/-- `AuthService.login` (auth_service.py lines 44-123). Input validation
treats only `None` as missing (`validate_required_fields`,
error_helpers.py lines 24-43: a field is missing iff absent or `is None`).
Lookup failure and wrong password both raise a bare
`InvalidCredentialsError`; inactive and locked accounts raise
`BusinessLogicError` via `validate_business_rule` (error_helpers.py lines
197-212). The store is committed on the failed-password path (the increment
is saved before the error is raised) and on success; the earlier error paths
raise before any commit. Token generation is abstracted to its success
payload: the committed user record. -/
def login (hashOk : String → String → Bool) (now : Nat) (store : Store)
    (username_or_email password : Option String) :
    Except APIError User × Store :=
  if username_or_email = none ∨ password = none then
    (Except.error (validationError "Missing required fields"), store)
  else
    match find_user_by_login store (username_or_email.getD "") with
    | none => (Except.error invalidCredentialsError, store)
    | some user =>
      if user.is_active = false then
        (Except.error (businessLogicError
          "Account is deactivated. Please contact support."), store)
      else
        let lockCheck := user.is_account_locked now
        if lockCheck.1 then
          (Except.error (businessLogicError
            "Account is temporarily locked due to multiple failed login attempts. Please try again later."),
           store)
        else
          let pwCheck := lockCheck.2.check_password hashOk now password
          if pwCheck.1 = false then
            (Except.error invalidCredentialsError, updateUser store pwCheck.2)
          else
            (Except.ok pwCheck.2, updateUser store pwCheck.2)

/-- `AuthService.refresh_token` (auth_service.py lines 125-180): an inactive
account fails with `ACCOUNT_INACTIVE`/403, a locked one with
`ACCOUNT_LOCKED`/423; otherwise a fresh access token is issued (abstracted
to `Except.ok ()`). -/
def refresh_token (now : Nat) (current_user : User) : Except APIError Unit :=
  if current_user.is_active = false then
    Except.error (authenticationError "ACCOUNT_INACTIVE" 403
      "Account is deactivated")
  else if (current_user.is_account_locked now).1 then
    Except.error (authenticationError "ACCOUNT_LOCKED" 423 "Account is locked")
  else
    Except.ok ()

/-- `AuthService.reset_password` (auth_service.py lines 329-394): after the
presence and length checks, the account is located by the stored reset-token
value; a missed lookup or an invalid/expired token fails with
`INVALID_RESET_TOKEN`/400 before any commit; otherwise the password is set,
the reset-token pair cleared, the lockout state cleared, and the result
committed. A `ValueError` escaping `set_password` is caught by the generic
handler as `PASSWORD_RESET_ERROR`/500 with a rollback. -/
def reset_password (hash : String → String) (now : Nat) (store : Store)
    (token new_password : Option String) :
    Except APIError String × Store :=
  if pyTruthy token = false ∨ pyTruthy new_password = false then
    (Except.error (authenticationError "MISSING_REQUIRED_FIELDS" 400
      "Reset token and new password are required"), store)
  else if (new_password.getD "").length < 8 then
    (Except.error (authenticationError "WEAK_PASSWORD" 400
      "Password must be at least 8 characters long"), store)
  else
    match store.find? (fun u => u.password_reset_token == some (token.getD "")) with
    | none =>
      (Except.error (authenticationError "INVALID_RESET_TOKEN" 400
        "Invalid or expired reset token"), store)
    | some user =>
      let check := user.is_password_reset_token_valid now (token.getD "")
      if check.1 = false then
        (Except.error (authenticationError "INVALID_RESET_TOKEN" 400
          "Invalid or expired reset token"), store)
      else
        match check.2.set_password hash now (new_password.getD "") with
        | Except.error _ =>
          (Except.error (authenticationError "PASSWORD_RESET_ERROR" 500
            "Password reset failed. Please try again."), store)
        | Except.ok u2 =>
          let u3 := u2.clear_password_reset_token.unlock_account
          (Except.ok "Password reset successfully.", updateUser store u3)

/-- `AuthService.verify_email` (auth_service.py lines 396-454): the account
is located by the stored verification-token value; a missed lookup fails
with `INVALID_VERIFICATION_TOKEN`/400; an already-verified account returns
success without touching the store; otherwise the account is marked
verified (clearing its token) and committed. -/
def verify_email (now : Nat) (store : Store) (token : Option String) :
    Except APIError String × Store :=
  if pyTruthy token = false then
    (Except.error (authenticationError "MISSING_TOKEN" 400
      "Verification token is required"), store)
  else
    match store.find? (fun u => u.email_verification_token == some (token.getD "")) with
    | none =>
      (Except.error (authenticationError "INVALID_VERIFICATION_TOKEN" 400
        "Invalid verification token"), store)
    | some user =>
      if user.is_verified then
        (Except.ok "Email address is already verified.", store)
      else
        (Except.ok "Email verified successfully.",
         updateUser store (user.verify_email now))

/-- `AuthService.change_password` (auth_service.py lines 456-524). The
`User` component of the result is the in-memory account object the service
mutates: `user.check_password(current_password)` runs — and applies the
failed-attempt lockout transition on failure — before the
`INVALID_CURRENT_PASSWORD` error is raised. The same-password guard reuses
`check_password` with the new plaintext, and the success path commits the
new hash. -/
def change_password (hashOk : String → String → Bool)
    (hash : String → String) (now : Nat) (user : User)
    (current_password new_password : Option String) :
    Except APIError String × User :=
  if pyTruthy current_password = false ∨ pyTruthy new_password = false then
    (Except.error (authenticationError "MISSING_REQUIRED_FIELDS" 400
      "Current password and new password are required"), user)
  else
    let cur := user.check_password hashOk now current_password
    if cur.1 = false then
      (Except.error (authenticationError "INVALID_CURRENT_PASSWORD" 400
        "Current password is incorrect"), cur.2)
    else if (new_password.getD "").length < 8 then
      (Except.error (authenticationError "WEAK_PASSWORD" 400
        "New password must be at least 8 characters long"), cur.2)
    else
      let same := cur.2.check_password hashOk now new_password
      if same.1 then
        (Except.error (authenticationError "SAME_PASSWORD" 400
          "New password must be different from current password"), same.2)
      else
        match same.2.set_password hash now (new_password.getD "") with
        | Except.error _ =>
          (Except.error (authenticationError "PASSWORD_CHANGE_ERROR" 500
            "Password change failed. Please try again."), same.2)
        | Except.ok u2 =>
          (Except.ok "Password changed successfully.", u2)

end AuthService

/-- A sequence of password checks, all at once-per-check times, threading
the account state: `User.check_password` applied successively at each
instant of `times`. -/
def runChecks (hashOk : String → String → Bool) (password : Option String)
    (times : List Nat) (u : User) : User :=
  times.foldl (fun acc t => (acc.check_password hashOk t password).2) u

/-- A hasher under which every verification fails, for concrete instances. -/
def rejectAll : String → String → Bool := fun _ _ => false

/-- A hasher under which every verification succeeds, for concrete
instances. -/
def acceptAll : String → String → Bool := fun _ _ => true

/-- A fresh, active, unverified account as registration creates it. -/
def baseUser : User :=
  { id := 1
    username := "alice"
    email := "alice@x.com"
    password_hash := some "HASH"
    is_active := true
    is_verified := false
    failed_login_attempts := 0
    locked_until := none
    last_login_at := none
    password_changed_at := none
    email_verified_at := none
    email_verification_token := none
    password_reset_token := none
    password_reset_expires_at := none }

/-- Invariant of consecutive failed checks: as long as the stored hash is a
nonempty string, the plaintext is nonempty, and the hasher rejects the pair,
each check preserves the hash, increments the failed counter once, and
leaves the lock untouched while the running count stays at 4 or below. -/
theorem runChecks_failed_spec (hashOk : String → String → Bool)
    (h p : String) (hh : h ≠ "") (hp : p ≠ "") (hfail : hashOk h p = false)
    (times : List Nat) :
    ∀ u : User, u.password_hash = some h →
      (runChecks hashOk (some p) times u).password_hash = some h ∧
      (runChecks hashOk (some p) times u).failed_login_attempts
        = u.failed_login_attempts + times.length ∧
      (u.failed_login_attempts + times.length ≤ 4 →
        (runChecks hashOk (some p) times u).locked_until = u.locked_until) := by
  induction times with
  | nil =>
    intro u hu
    simp [runChecks, hu]
  | cons t ts ih =>
    intro u hu
    have hrun : runChecks hashOk (some p) (t :: ts) u
        = runChecks hashOk (some p) ts (u.check_password hashOk t (some p)).2 :=
      rfl
    by_cases hge : u.failed_login_attempts + 1 ≥ 5
    · have hu' : (u.check_password hashOk t (some p)).2
          = { u with failed_login_attempts := u.failed_login_attempts + 1
                     locked_until := some (t + 1800) } := by
        simp only [User.check_password, pyTruthy, hu]
        simp [hp, hh, hfail]
        rw [if_pos (by omega)]
      obtain ⟨ih1, ih2, _⟩ := ih ((u.check_password hashOk t (some p)).2)
        (by rw [hu']; exact hu)
      rw [hu'] at ih1 ih2
      rw [hrun, hu']
      refine ⟨ih1, ?_, ?_⟩
      · rw [ih2]
        show u.failed_login_attempts + 1 + ts.length
            = u.failed_login_attempts + (t :: ts).length
        simp only [List.length_cons]
        omega
      · intro hle
        simp only [List.length_cons] at hle
        omega
    · have hu' : (u.check_password hashOk t (some p)).2
          = { u with failed_login_attempts := u.failed_login_attempts + 1 } := by
        simp only [User.check_password, pyTruthy, hu]
        simp [hp, hh, hfail]
        rw [if_neg (by omega)]
      obtain ⟨ih1, ih2, ih3⟩ := ih ((u.check_password hashOk t (some p)).2)
        (by rw [hu']; exact hu)
      rw [hu'] at ih1 ih2 ih3
      rw [hrun, hu']
      refine ⟨ih1, ?_, ?_⟩
      · rw [ih2]
        show u.failed_login_attempts + 1 + ts.length
            = u.failed_login_attempts + (t :: ts).length
        simp only [List.length_cons]
        omega
      · intro hle
        simp only [List.length_cons] at hle
        have hle' : ({ u with
            failed_login_attempts := u.failed_login_attempts + 1 }
              : User).failed_login_attempts + ts.length ≤ 4 := by
          show u.failed_login_attempts + 1 + ts.length ≤ 4
          omega
        rw [ih3 hle']

/-- C1: from a clean account (`failed_login_attempts = 0`, no lock), any
4 or fewer consecutive failed password checks leave the account unlocked
with the counter equal to the number of failures, and a 5th consecutive
failure at instant `t5` locks the account until `t5 + 30` minutes. -/
theorem lockout_threshold (hashOk : String → String → Bool) (h p : String)
    (u : User) (times : List Nat) (t5 : Nat)
    (hh : h ≠ "") (hp : p ≠ "") (hfail : hashOk h p = false)
    (hhash : u.password_hash = some h)
    (hcount : u.failed_login_attempts = 0) (hlock : u.locked_until = none) :
    (times.length ≤ 4 →
      (runChecks hashOk (some p) times u).locked_until = none ∧
      (runChecks hashOk (some p) times u).failed_login_attempts
        = times.length) ∧
    (times.length = 4 →
      ((runChecks hashOk (some p) times u).check_password hashOk t5
          (some p)).2.locked_until = some (t5 + 1800) ∧
      ((runChecks hashOk (some p) times u).check_password hashOk t5
          (some p)).2.failed_login_attempts = 5) := by
  obtain ⟨h1, h2, h3⟩ := runChecks_failed_spec hashOk h p hh hp hfail times u hhash
  constructor
  · intro hle
    refine ⟨?_, by rw [h2, hcount, Nat.zero_add]⟩
    rw [h3 (by omega), hlock]
  · intro h4
    have hcnt : (runChecks hashOk (some p) times u).failed_login_attempts = 4 := by
      rw [h2, hcount, Nat.zero_add, h4]
    have hstep :
        ((runChecks hashOk (some p) times u).check_password hashOk t5 (some p)).2
          = { runChecks hashOk (some p) times u with
                failed_login_attempts := 5
                locked_until := some (t5 + 1800) } := by
      simp [User.check_password, pyTruthy, h1, hp, hh, hfail, hcnt]
    rw [hstep]
    exact ⟨rfl, rfl⟩

/-- Closed instance of `lockout_threshold`: four failed checks leave the
sample account unlocked at count 4, and the fifth at instant 50 locks it
until 1850. -/
theorem lockout_threshold_witness :
    ((runChecks rejectAll (some "wrong") [10, 20, 30, 40] baseUser).locked_until
        = none ∧
      (runChecks rejectAll (some "wrong") [10, 20, 30, 40]
          baseUser).failed_login_attempts = 4) ∧
    ((runChecks rejectAll (some "wrong") [10, 20, 30, 40]
          baseUser).check_password rejectAll 50 (some "wrong")).2.locked_until
        = some 1850 :=
  ⟨(lockout_threshold rejectAll "HASH" "wrong" baseUser [10, 20, 30, 40] 50
      (by decide) (by decide) rfl rfl rfl rfl).1 (by decide),
   ((lockout_threshold rejectAll "HASH" "wrong" baseUser [10, 20, 30, 40] 50
      (by decide) (by decide) rfl rfl rfl rfl).2 (by decide)).1⟩

/-- C2: whatever the prior failed-attempt count (0-4) and whatever the lock
state, a password check that verifies returns `true` and leaves the account
with `failed_login_attempts = 0`, `locked_until = none`, and
`last_login_at = now`. -/
theorem success_resets_state (hashOk : String → String → Bool) (now : Nat)
    (u : User) (h p : String)
    (hhash : u.password_hash = some h) (hh : h ≠ "") (hp : p ≠ "")
    (hok : hashOk h p = true) (_hcount : u.failed_login_attempts ≤ 4) :
    (u.check_password hashOk now (some p)).1 = true ∧
    (u.check_password hashOk now (some p)).2.failed_login_attempts = 0 ∧
    (u.check_password hashOk now (some p)).2.locked_until = none ∧
    (u.check_password hashOk now (some p)).2.last_login_at = some now := by
  simp [User.check_password, pyTruthy, hhash, hp, hh, hok]

/-- Closed instance of `success_resets_state`: a correct password on an
account with 3 failures and an active lock resets counter and lock and
stamps the login time. -/
theorem success_resets_state_witness :
    (({ baseUser with failed_login_attempts := 3, locked_until := some 999
        } : User).check_password acceptAll 42 (some "right")).1 = true ∧
    (({ baseUser with failed_login_attempts := 3, locked_until := some 999
        } : User).check_password acceptAll 42
        (some "right")).2.failed_login_attempts = 0 ∧
    (({ baseUser with failed_login_attempts := 3, locked_until := some 999
        } : User).check_password acceptAll 42
        (some "right")).2.locked_until = none ∧
    (({ baseUser with failed_login_attempts := 3, locked_until := some 999
        } : User).check_password acceptAll 42
        (some "right")).2.last_login_at = some 42 :=
  success_resets_state acceptAll 42
    { baseUser with failed_login_attempts := 3, locked_until := some 999 }
    "HASH" "right" rfl (by decide) (by decide) rfl (by decide)

/-- C10: a password check with a missing or empty plaintext, or against an
account with no stored hash, returns `false` and the account completely
unchanged — no counter increment, no lock. -/
theorem empty_password_frame (hashOk : String → String → Bool) (now : Nat)
    (u : User) (pw : Option String)
    (hcase : pw = none ∨ pw = some "" ∨ u.password_hash = none) :
    u.check_password hashOk now pw = (false, u) := by
  rcases hcase with hpw | hpw | hhash
  · simp [User.check_password, hpw, pyTruthy]
  · simp [User.check_password, hpw, pyTruthy]
  · simp [User.check_password, hhash, pyTruthy]

/-- Closed instance of `empty_password_frame`: an empty plaintext against an
account with 3 failures leaves the account exactly as it was. -/
theorem empty_password_frame_witness :
    ({ baseUser with failed_login_attempts := 3 } : User).check_password
        rejectAll 7 (some "")
      = (false, { baseUser with failed_login_attempts := 3 }) :=
  empty_password_frame rejectAll 7
    { baseUser with failed_login_attempts := 3 } (some "")
    (Or.inr (Or.inl rfl))

/-- An account locked at time 0 with a 30-minute window
(`locked_until = 0 + 1800`). -/
def lockedAtExpiry : User :=
  { baseUser with locked_until := some 1800 }

/-- C3 counterexample: at exactly `T + 30m00s` (here `T = 0`, check at
instant 1800) `is_account_locked` still reports locked, because the source
clears the lock only when `utcnow() > locked_until` holds strictly — the
claim asserts the account is unlocked at exactly `T + 30m00s`. -/
theorem lock_expiry_exact_counterexample :
    lockedAtExpiry.locked_until = some (0 + 1800) ∧
    (lockedAtExpiry.is_account_locked 1800).1 = true := by
  exact ⟨rfl, rfl⟩

/-- C3 (amended): an account locked until `T + 1800` reports locked at every
check instant up to and including `T + 1800` (in particular at `T + 29m59s`),
and at any strictly later instant reports unlocked, clearing `locked_until`
and resetting `failed_login_attempts` to 0 on that unlock. -/
theorem lock_expiry_lazy (T now : Nat) (u : User)
    (hl : u.locked_until = some (T + 1800)) :
    (now ≤ T + 1800 → u.is_account_locked now = (true, u)) ∧
    (now > T + 1800 →
      u.is_account_locked now
        = (false,
           { u with locked_until := none, failed_login_attempts := 0 })) := by
  constructor
  · intro hle
    simp only [User.is_account_locked, hl]
    rw [if_neg (by omega)]
  · intro hgt
    simp only [User.is_account_locked, hl]
    rw [if_pos (by omega)]

/-- Closed instance of `lock_expiry_lazy`: locked at 1799 (one second before
expiry) and unlocked, with the state reset, at 1801. -/
theorem lock_expiry_lazy_witness :
    lockedAtExpiry.is_account_locked 1799 = (true, lockedAtExpiry) ∧
    lockedAtExpiry.is_account_locked 1801 = (false, baseUser) :=
  ⟨(lock_expiry_lazy 0 1799 lockedAtExpiry rfl).1 (by omega),
   (lock_expiry_lazy 0 1801 lockedAtExpiry rfl).2 (by omega)⟩

/-- The lock inspection never changes the stored password hash. -/
theorem is_account_locked_password_hash (now : Nat) (u : User) :
    (u.is_account_locked now).2.password_hash = u.password_hash := by
  unfold User.is_account_locked
  cases hl : u.locked_until with
  | none => rfl
  | some t => by_cases hgt : now > t <;> simp [hgt]

/-- A check against a nonempty stored hash with a nonempty plaintext the
hasher rejects reports failure. -/
theorem check_password_fst_false (hashOk : String → String → Bool)
    (now : Nat) (u : User) (h p : String)
    (hhash : u.password_hash = some h) (hh : h ≠ "") (hp : p ≠ "")
    (hwrong : hashOk h p = false) :
    (u.check_password hashOk now (some p)).1 = false := by
  simp only [User.check_password, pyTruthy, hhash]
  simp [hh, hp, hwrong]
  split <;> rfl

/-- C4: for a stored, active, currently-unlocked account with a password
hash, a login with an identifier matching no account and a login with the
right identifier but a rejected password both return the very same typed
error — the bare `InvalidCredentialsError`, code `INVALID_CREDENTIALS`,
status 401. -/
theorem login_existence_nonleak (hashOk : String → String → Bool)
    (now : Nat) (store : Store) (badId goodId pw1 pw2 : String)
    (u : User) (h : String)
    (hmiss : AuthService.find_user_by_login store badId = none)
    (hfound : AuthService.find_user_by_login store goodId = some u)
    (hactive : u.is_active = true)
    (hnotlocked : (u.is_account_locked now).1 = false)
    (hhash : u.password_hash = some h) (hh : h ≠ "") (hpw : pw2 ≠ "")
    (hwrong : hashOk h pw2 = false) :
    (AuthService.login hashOk now store (some badId) (some pw1)).1
      = Except.error invalidCredentialsError ∧
    (AuthService.login hashOk now store (some goodId) (some pw2)).1
      = Except.error invalidCredentialsError ∧
    invalidCredentialsError.error_code = "INVALID_CREDENTIALS" ∧
    invalidCredentialsError.status_code = 401 := by
  refine ⟨?_, ?_, rfl, rfl⟩
  · simp [AuthService.login, hmiss]
  · have hhash2 : (u.is_account_locked now).2.password_hash = some h := by
      rw [is_account_locked_password_hash]
      exact hhash
    have hfalse := check_password_fst_false hashOk now
      (u.is_account_locked now).2 h pw2 hhash2 hh hpw hwrong
    simp [AuthService.login, hfound, hactive, hnotlocked, hfalse]

/-- A store holding only the sample account, with a wrong-password hasher. -/
def storeC4 : Store := [baseUser]

/-- Closed instance of `login_existence_nonleak` on a one-account store:
unknown identifier and wrong password yield the identical error. -/
theorem login_existence_nonleak_witness :
    (AuthService.login rejectAll 5 storeC4 (some "doesnotexist")
        (some "anything")).1 = Except.error invalidCredentialsError ∧
    (AuthService.login rejectAll 5 storeC4 (some "alice")
        (some "wrongpassword")).1 = Except.error invalidCredentialsError :=
  ⟨(login_existence_nonleak rejectAll 5 storeC4 "doesnotexist" "alice"
      "anything" "wrongpassword" baseUser "HASH" (by decide) (by decide)
      rfl rfl rfl (by decide) (by decide) rfl).1,
   (login_existence_nonleak rejectAll 5 storeC4 "doesnotexist" "alice"
      "anything" "wrongpassword" baseUser "HASH" (by decide) (by decide)
      rfl rfl rfl (by decide) (by decide) rfl).2.1⟩

/-- A stored account whose lock is still in force at every sample instant. -/
def lockedUserC7 : User :=
  { baseUser with
    id := 7
    username := "charlie"
    email := "charlie@x.com"
    locked_until := some 9999 }

/-- C7 counterexample: a login against a currently-locked account fails with
the generic `BUSINESS_LOGIC_ERROR` at status 400 (raised through
`validate_business_rule`), not with an `ACCOUNT_LOCKED` error at 423 as the
claim asserts. -/
theorem login_locked_counterexample :
    (AuthService.login acceptAll 0 [lockedUserC7] (some "charlie")
        (some "pw123")).1
      = Except.error (businessLogicError
          "Account is temporarily locked due to multiple failed login attempts. Please try again later.") ∧
    (businessLogicError
        "Account is temporarily locked due to multiple failed login attempts. Please try again later.").error_code
      ≠ "ACCOUNT_LOCKED" ∧
    (businessLogicError
        "Account is temporarily locked due to multiple failed login attempts. Please try again later.").status_code
      = 400 := by
  refine ⟨rfl, by decide, rfl⟩

/-- C7 (amended): login against a found, active account whose lock is still
in force fails with the generic business-rule error `BUSINESS_LOGIC_ERROR`
mapped to status 400; the `ACCOUNT_LOCKED`/423 error is raised for locked
accounts only on the token-refresh path. -/
theorem login_locked_business_rule (hashOk : String → String → Bool)
    (now : Nat) (store : Store) (id pw : String) (u : User) (t : Nat)
    (hfound : AuthService.find_user_by_login store id = some u)
    (hactive : u.is_active = true)
    (hl : u.locked_until = some t) (hnow : now ≤ t) :
    (AuthService.login hashOk now store (some id) (some pw)).1
      = Except.error (businessLogicError
          "Account is temporarily locked due to multiple failed login attempts. Please try again later.") ∧
    AuthService.refresh_token now u
      = Except.error (authenticationError "ACCOUNT_LOCKED" 423
          "Account is locked") := by
  have hlocked : (u.is_account_locked now).1 = true := by
    simp only [User.is_account_locked, hl]
    rw [if_neg (by omega)]
  constructor
  · simp [AuthService.login, hfound, hactive, hlocked]
  · simp [AuthService.refresh_token, hactive, hlocked]

/-- Closed instance of `login_locked_business_rule` on the locked sample
account. -/
theorem login_locked_business_rule_witness :
    (AuthService.login acceptAll 10 [lockedUserC7] (some "charlie")
        (some "pw123")).1
      = Except.error (businessLogicError
          "Account is temporarily locked due to multiple failed login attempts. Please try again later.") ∧
    AuthService.refresh_token 10 lockedUserC7
      = Except.error (authenticationError "ACCOUNT_LOCKED" 423
          "Account is locked") :=
  login_locked_business_rule acceptAll 10 [lockedUserC7] "charlie" "pw123"
    lockedUserC7 9999 rfl rfl rfl (by omega)

/-- A stored account whose username contains an `@` (the registration
service never runs the username-format validator: `AuthService.register`
calls `db.session.add`/`commit` directly, and `User._validate_custom` fires
only from `BaseModel.save`/`from_dict`/`update_from_dict`). -/
def atUserC8 : User :=
  { baseUser with
    id := 8
    username := "weird@name"
    email := "weird@mail.com" }

/-- C8 counterexample: for an identifier containing `@` the source performs
only the email lookup, with no username fallback: on a store whose one
account has username `weird@name`, the source lookup misses while the
spec's both-directions algorithm finds the account. -/
theorem find_user_fallback_counterexample :
    AuthService.find_user_by_login [atUserC8] "weird@name" = none ∧
    AuthService.find_user_by_login_spec [atUserC8] "weird@name"
      = some atUserC8 := by
  exact ⟨rfl, rfl⟩

/-- C8 (amended): the fallback applies in one direction only — an
identifier without `@` is looked up by username first with an email
fallback (agreeing with the spec's algorithm there), while an identifier
containing `@` is looked up by email only. -/
theorem find_user_fallback_amended (store : Store) (id : String) :
    (pyContains id '@' = false →
      AuthService.find_user_by_login store id
        = AuthService.find_user_by_login_spec store id) ∧
    (pyContains id '@' = true →
      AuthService.find_user_by_login store id = get_by_email store id) := by
  constructor
  · intro hc
    simp [AuthService.find_user_by_login, AuthService.find_user_by_login_spec,
      hc]
  · intro hc
    simp [AuthService.find_user_by_login, hc]

/-- Closed instance of `find_user_fallback_amended` at a plain username and
at an email-shaped identifier. -/
theorem find_user_fallback_amended_witness :
    AuthService.find_user_by_login [atUserC8] "bob"
      = AuthService.find_user_by_login_spec [atUserC8] "bob" ∧
    AuthService.find_user_by_login [atUserC8] "a@b"
      = get_by_email [atUserC8] "a@b" :=
  ⟨(find_user_fallback_amended [atUserC8] "bob").1 (by decide),
   (find_user_fallback_amended [atUserC8] "a@b").2 (by decide)⟩

/-- A failed check increments the counter by exactly one, and sets the
30-minute lock when the incremented counter reaches 5. -/
theorem check_password_failed_effect (hashOk : String → String → Bool)
    (now : Nat) (u : User) (h p : String)
    (hhash : u.password_hash = some h) (hh : h ≠ "") (hp : p ≠ "")
    (hwrong : hashOk h p = false) :
    (u.check_password hashOk now (some p)).2.failed_login_attempts
      = u.failed_login_attempts + 1 ∧
    (u.failed_login_attempts + 1 ≥ 5 →
      (u.check_password hashOk now (some p)).2.locked_until
        = some (now + 1800)) := by
  constructor
  · simp only [User.check_password, pyTruthy, hhash]
    simp [hh, hp, hwrong]
    split <;> rfl
  · intro hge
    simp only [User.check_password, pyTruthy, hhash]
    simp [hh, hp, hwrong]
    split
    · rfl
    · omega

/-- C9: a `change_password` whose current password the hasher rejects fails
with `INVALID_CURRENT_PASSWORD` only after the lockout transition has been
applied to the account object: the returned account carries
`failed_login_attempts` incremented by one, and when the prior count was 4
the fifth such failure sets `locked_until` 30 minutes ahead — so repeated
wrong current-password attempts through `change_password` lock the
account. -/
theorem change_password_wrong_current (hashOk : String → String → Bool)
    (hash : String → String) (now : Nat) (u : User) (cp np h : String)
    (hcp : cp ≠ "") (hnp : np ≠ "")
    (hhash : u.password_hash = some h) (hh : h ≠ "")
    (hwrong : hashOk h cp = false) :
    (AuthService.change_password hashOk hash now u (some cp) (some np)).1
      = Except.error (authenticationError "INVALID_CURRENT_PASSWORD" 400
          "Current password is incorrect") ∧
    (AuthService.change_password hashOk hash now u (some cp)
        (some np)).2.failed_login_attempts = u.failed_login_attempts + 1 ∧
    (u.failed_login_attempts = 4 →
      (AuthService.change_password hashOk hash now u (some cp)
          (some np)).2.locked_until = some (now + 1800)) := by
  have hfalse := check_password_fst_false hashOk now u h cp hhash hh hcp hwrong
  obtain ⟨heff1, heff2⟩ :=
    check_password_failed_effect hashOk now u h cp hhash hh hcp hwrong
  refine ⟨?_, ?_, ?_⟩
  · simp [AuthService.change_password, pyTruthy, hcp, hnp, hfalse]
  · simp [AuthService.change_password, pyTruthy, hcp, hnp, hfalse, heff1]
  · intro h4
    simp [AuthService.change_password, pyTruthy, hcp, hnp, hfalse]
    rw [heff2 (by omega)]

/-- Closed instance of `change_password_wrong_current`: the fifth wrong
current password locks the sample account until `now + 1800`. -/
theorem change_password_wrong_current_witness :
    (AuthService.change_password rejectAll (fun s => s) 60
        { baseUser with failed_login_attempts := 4 } (some "oldpw")
        (some "newpassword1")).1
      = Except.error (authenticationError "INVALID_CURRENT_PASSWORD" 400
          "Current password is incorrect") ∧
    (AuthService.change_password rejectAll (fun s => s) 60
        { baseUser with failed_login_attempts := 4 } (some "oldpw")
        (some "newpassword1")).2.failed_login_attempts = 5 ∧
    (AuthService.change_password rejectAll (fun s => s) 60
        { baseUser with failed_login_attempts := 4 } (some "oldpw")
        (some "newpassword1")).2.locked_until = some 1860 :=
  ⟨(change_password_wrong_current rejectAll (fun s => s) 60
      { baseUser with failed_login_attempts := 4 } "oldpw" "newpassword1"
      "HASH" (by decide) (by decide) rfl (by decide) rfl).1,
   (change_password_wrong_current rejectAll (fun s => s) 60
      { baseUser with failed_login_attempts := 4 } "oldpw" "newpassword1"
      "HASH" (by decide) (by decide) rfl (by decide) rfl).2.1,
   (change_password_wrong_current rejectAll (fun s => s) 60
      { baseUser with failed_login_attempts := 4 } "oldpw" "newpassword1"
      "HASH" (by decide) (by decide) rfl (by decide) rfl).2.2 rfl⟩

/-- An account with no stored reset token never validates any presented
reset token. -/
theorem reset_token_none_invalid (now : Nat) (v : User) (tok : String)
    (hv : v.password_reset_token = none) :
    (v.is_password_reset_token_valid now tok).1 = false := by
  simp [User.is_password_reset_token_valid, hv, pyTruthy]

/-- A freshly issued reset token validates exactly while `now` has not
passed the stored expiry. -/
theorem issued_token_valid_iff (T expiry_h now : Nat) (u : User)
    (tk : String) (htk : tk ≠ "") :
    (now ≤ T + expiry_h * 3600 →
      (u.set_password_reset_token T expiry_h tk).is_password_reset_token_valid
          now tk
        = (true, u.set_password_reset_token T expiry_h tk)) ∧
    (now > T + expiry_h * 3600 →
      ((u.set_password_reset_token T expiry_h tk).is_password_reset_token_valid
          now tk).1 = false) := by
  constructor
  · intro hle
    simp only [User.is_password_reset_token_valid,
      User.set_password_reset_token, pyTruthy]
    simp [htk]
    omega
  · intro hgt
    simp only [User.is_password_reset_token_valid,
      User.set_password_reset_token, pyTruthy]
    simp [htk]
    rw [if_pos hgt]

/-- C5: a reset token issued by `set_password_reset_token` (24-hour window)
validates before its stored expiry and fails validation at any instant
strictly after it; consuming it through `reset_password` clears the stored
token and expiry, after which both a re-validation and a second
`reset_password` with the same token fail. -/
theorem reset_token_roundtrip (hash : String → String)
    (T now1 now2 now3 now4 : Nat) (u : User) (tk np : String)
    (htk : tk ≠ "") (hnp : np ≠ "") (hnplen : 8 ≤ np.length)
    (hnpstrip : 8 ≤ (pyStrip np).length)
    (hbefore : now1 < T + 86400) (hafter : now2 > T + 86400) :
    ((u.set_password_reset_token T 24 tk).is_password_reset_token_valid
        now1 tk).1 = true ∧
    ((u.set_password_reset_token T 24 tk).is_password_reset_token_valid
        now2 tk).1 = false ∧
    (AuthService.reset_password hash now1 [u.set_password_reset_token T 24 tk]
        (some tk) (some np)).1 = Except.ok "Password reset successfully." ∧
    (∀ v ∈ (AuthService.reset_password hash now1
        [u.set_password_reset_token T 24 tk] (some tk) (some np)).2,
      (v.is_password_reset_token_valid now3 tk).1 = false) ∧
    (AuthService.reset_password hash now4
        (AuthService.reset_password hash now1
          [u.set_password_reset_token T 24 tk] (some tk) (some np)).2
        (some tk) (some np)).1
      = Except.error (authenticationError "INVALID_RESET_TOKEN" 400
          "Invalid or expired reset token") := by
  obtain ⟨hval, _⟩ := issued_token_valid_iff T 24 now1 u tk htk
  obtain ⟨_, hinval2⟩ := issued_token_valid_iff T 24 now2 u tk htk
  have hvalid1 := hval (by omega)
  set w := u.set_password_reset_token T 24 tk with hw
  have hwt : w.password_reset_token = some tk := by rw [hw]; rfl
  have hlen : ¬(np.length < 8) := by omega
  have hsetpw : w.set_password hash now1 np
      = Except.ok { w with
          password_hash := some (hash np)
          password_changed_at := some now1 } := by
    simp only [User.set_password]
    rw [if_neg ?_]
    rintro (hemp | hshort)
    · exact hnp hemp
    · omega
  have hrp : AuthService.reset_password hash now1 [w] (some tk) (some np)
      = (Except.ok "Password reset successfully.",
         [{ w with
             password_hash := some (hash np)
             password_changed_at := some now1
             password_reset_token := none
             password_reset_expires_at := none
             locked_until := none
             failed_login_attempts := 0 }]) := by
    simp [AuthService.reset_password, pyTruthy, htk, hnp, hlen, hwt,
      hvalid1, hsetpw, User.clear_password_reset_token, User.unlock_account,
      updateUser]
  refine ⟨by rw [hvalid1], hinval2 (by omega), by rw [hrp], ?_, ?_⟩
  · intro v hv
    rw [hrp] at hv
    simp only [List.mem_singleton] at hv
    subst hv
    exact reset_token_none_invalid now3 _ tk rfl
  · rw [hrp]
    simp [AuthService.reset_password, pyTruthy, htk, hnp, hlen]

/-- Closed instance of `reset_token_roundtrip` on the sample account: token
issued at 0, validated at 100, probed after expiry at 86401, consumed at
100, and presented again at 200. -/
theorem reset_token_roundtrip_witness :
    ((baseUser.set_password_reset_token 0 24
        "RTOKEN").is_password_reset_token_valid 100 "RTOKEN").1 = true ∧
    ((baseUser.set_password_reset_token 0 24
        "RTOKEN").is_password_reset_token_valid 86401 "RTOKEN").1 = false ∧
    (AuthService.reset_password (fun s => s) 100
        [baseUser.set_password_reset_token 0 24 "RTOKEN"] (some "RTOKEN")
        (some "newpassword1")).1 = Except.ok "Password reset successfully." ∧
    (AuthService.reset_password (fun s => s) 200
        (AuthService.reset_password (fun s => s) 100
          [baseUser.set_password_reset_token 0 24 "RTOKEN"] (some "RTOKEN")
          (some "newpassword1")).2
        (some "RTOKEN") (some "newpassword1")).1
      = Except.error (authenticationError "INVALID_RESET_TOKEN" 400
          "Invalid or expired reset token") :=
  ⟨(reset_token_roundtrip (fun s => s) 0 100 86401 150 200 baseUser "RTOKEN"
      "newpassword1" (by decide) (by decide) (by decide) (by decide)
      (by omega) (by omega)).1,
   (reset_token_roundtrip (fun s => s) 0 100 86401 150 200 baseUser "RTOKEN"
      "newpassword1" (by decide) (by decide) (by decide) (by decide)
      (by omega) (by omega)).2.1,
   (reset_token_roundtrip (fun s => s) 0 100 86401 150 200 baseUser "RTOKEN"
      "newpassword1" (by decide) (by decide) (by decide) (by decide)
      (by omega) (by omega)).2.2.1,
   (reset_token_roundtrip (fun s => s) 0 100 86401 150 200 baseUser "RTOKEN"
      "newpassword1" (by decide) (by decide) (by decide) (by decide)
      (by omega) (by omega)).2.2.2.2⟩

/-- An unverified account with a pending verification token. -/
def aliceC6 : User :=
  { baseUser with email_verification_token := some "tokA" }

/-- A second unverified account with a different pending token. -/
def bobC6 : User :=
  { baseUser with
    id := 2
    username := "bob"
    email := "bob@x.com"
    email_verification_token := some "tokB" }

/-- C6 counterexample: the second `verify_email` call presenting the token
the first call consumed fails with `INVALID_VERIFICATION_TOKEN` — not
success as the claim asserts — because consumption cleared the stored token
and the lookup-by-token then misses. -/
theorem verify_email_second_call_counterexample :
    (AuthService.verify_email 100 [aliceC6, bobC6] (some "tokA")).1
      = Except.ok "Email verified successfully." ∧
    (AuthService.verify_email 200
        (AuthService.verify_email 100 [aliceC6, bobC6] (some "tokA")).2
        (some "tokA")).1
      = Except.error (authenticationError "INVALID_VERIFICATION_TOKEN" 400
          "Invalid verification token") := by
  exact ⟨rfl, rfl⟩

/-- C6 (amended): the first `verify_email` call on a pending account
succeeds, marks that account verified and clears its token in the committed
store — every other account, its still-pending token included, is carried
over unchanged — and a second call presenting the same, now-consumed token
fails with `INVALID_VERIFICATION_TOKEN`/400 rather than succeeding. (The
source's already-verified success branch is reachable only while the token
is still stored, which consumption precludes.) -/
theorem verify_email_not_idempotent (now1 now2 : Nat) (store : Store)
    (tk : String) (htk : tk ≠ "") (u : User)
    (hfind : store.find? (fun v => v.email_verification_token == some tk)
      = some u)
    (hunver : u.is_verified = false)
    (huniq : ∀ v ∈ store, v.email_verification_token = some tk → v.id = u.id) :
    (AuthService.verify_email now1 store (some tk)).1
      = Except.ok "Email verified successfully." ∧
    (∀ v ∈ (AuthService.verify_email now1 store (some tk)).2, v.id = u.id →
      v.is_verified = true ∧ v.email_verification_token = none) ∧
    (∀ v ∈ store, v.id ≠ u.id →
      v ∈ (AuthService.verify_email now1 store (some tk)).2) ∧
    (AuthService.verify_email now2
        (AuthService.verify_email now1 store (some tk)).2 (some tk)).1
      = Except.error (authenticationError "INVALID_VERIFICATION_TOKEN" 400
          "Invalid verification token") := by
  have hcall : AuthService.verify_email now1 store (some tk)
      = (Except.ok "Email verified successfully.",
         updateUser store (u.verify_email now1)) := by
    simp [AuthService.verify_email, pyTruthy, htk, hfind, hunver]
  have hnone : (updateUser store (u.verify_email now1)).find?
      (fun v => v.email_verification_token == some tk) = none := by
    rw [List.find?_eq_none]
    intro x hx
    simp only [updateUser, List.mem_map] at hx
    obtain ⟨v, hv, hfx⟩ := hx
    by_cases hid : v.id = (u.verify_email now1).id
    · rw [if_pos hid] at hfx
      subst hfx
      simp [User.verify_email]
    · rw [if_neg hid] at hfx
      subst hfx
      have : v.email_verification_token ≠ some tk := by
        intro htok
        exact hid (huniq v hv htok)
      simp [this]
  refine ⟨by rw [hcall], ?_, ?_, ?_⟩
  · intro v hv hvid
    rw [hcall] at hv
    simp only [updateUser, List.mem_map] at hv
    obtain ⟨w, hw, hfw⟩ := hv
    by_cases hwid : w.id = (u.verify_email now1).id
    · rw [if_pos hwid] at hfw
      subst hfw
      exact ⟨rfl, rfl⟩
    · rw [if_neg hwid] at hfw
      subst hfw
      exact absurd (show w.id = (u.verify_email now1).id from hvid) hwid
  · intro v hv hvid
    rw [hcall]
    simp only [updateUser, List.mem_map]
    refine ⟨v, hv, ?_⟩
    have hvid' : v.id ≠ (u.verify_email now1).id := hvid
    rw [if_neg hvid']
  · rw [hcall]
    simp [AuthService.verify_email, pyTruthy, htk, hnone]

/-- Closed instance of `verify_email_not_idempotent` on the two-account
store: the first call succeeds, the committed record for the consuming
account is verified with its token cleared, the other account's pending
token survives, and the second call with the consumed token fails. -/
theorem verify_email_not_idempotent_witness :
    (AuthService.verify_email 100 [aliceC6, bobC6] (some "tokA")).1
      = Except.ok "Email verified successfully." ∧
    ((aliceC6.verify_email 100).is_verified = true ∧
      (aliceC6.verify_email 100).email_verification_token = none) ∧
    bobC6 ∈ (AuthService.verify_email 100 [aliceC6, bobC6] (some "tokA")).2 ∧
    (AuthService.verify_email 200
        (AuthService.verify_email 100 [aliceC6, bobC6] (some "tokA")).2
        (some "tokA")).1
      = Except.error (authenticationError "INVALID_VERIFICATION_TOKEN" 400
          "Invalid verification token") :=
  ⟨(verify_email_not_idempotent 100 200 [aliceC6, bobC6] "tokA" (by decide)
      aliceC6 rfl rfl (by decide)).1,
   (verify_email_not_idempotent 100 200 [aliceC6, bobC6] "tokA" (by decide)
      aliceC6 rfl rfl (by decide)).2.1 (aliceC6.verify_email 100)
      (by decide) rfl,
   (verify_email_not_idempotent 100 200 [aliceC6, bobC6] "tokA" (by decide)
      aliceC6 rfl rfl (by decide)).2.2.1 bobC6 (by simp) (by decide),
   (verify_email_not_idempotent 100 200 [aliceC6, bobC6] "tokA" (by decide)
      aliceC6 rfl rfl (by decide)).2.2.2⟩

end Flokie
